import Mathlib

/-!
Shallow embedding of `Req.Submit` from `pkg/web.go` of the rwxrob/web
repository, together with the stdlib helpers it relies on
(`url.Values.Encode`, header maps), and theorems settling the frozen
claims about the specification.

Modelling conventions:
* Go strings are Lean `String`s; `len` of a Go string is the UTF-8 byte
  length (`String.utf8ByteSize`).
* Go's `any`-typed `Body` field is dispatched by a type switch whose
  cases are concrete types (`url.Values`, `[]byte`, `string`) followed by
  interfaces (`yaml.Marshaler`, `json.Marshaler`, `encoding.TextMarshaler`,
  `fmt.Stringer`) and a catch-all `default`. A Go value is embedded as a
  capability record (`BodyVal`): each field records whether the dynamic
  value matches that case and, for marshalers, the result the marshal
  call would produce. The dispatch function checks the capabilities in
  exactly the source's case order, so priority between overlapping
  interface implementations is preserved. The `default` case applies
  Go's generic formatting, recorded in `defaultFmt`; a nil interface
  value matches no typed case and formats as the literal string given by
  Go's fmt package for nil.
* The `Data` destination field is embedded the same way (`DataVal`),
  following the source's receive switch: `map[string]any`, `string`,
  `[]byte`, `yaml.Unmarshaler`, `io.Writer`, `rwxjson.This`, `default`.
* Effects of the Go standard library (the outcome of `http.NewRequest`,
  of `Client.Do`, of `io.ReadAll` on the response body, and of
  `yaml.Unmarshal` into the destination) are supplied as oracles in a
  `NetEnv` record / in the `HttpResponse` record, so `submit` is a pure
  total function of the descriptor and the environment. Per the
  documented contract of `http.Client.Do`, a nil error comes with a
  non-nil response; the `DoOutcome` type encodes exactly that contract.
* The embedding additionally records observations needed by the claims:
  whether an outbound request was constructed, whether the shared client
  was invoked, the constructed outbound request, and whether the
  destination dispatch switch was entered.
-/

deriving instance DecidableEq for Except

/-- Whether a string contains a character, embedding Go's
`strings.Index(s, onechar) >= 0`. -/
def containsChar (s : String) (c : Char) : Bool := s.data.contains c

/-- UTF-8 encoding of one character as a list of byte values. -/
def charUtf8Bytes (c : Char) : List Nat :=
  let n := c.toNat
  if n < 128 then [n]
  else if n < 2048 then [192 + n / 64, 128 + n % 64]
  else if n < 65536 then [224 + n / 4096, 128 + (n / 64) % 64, 128 + n % 64]
  else [240 + n / 262144, 128 + (n / 4096) % 64, 128 + (n / 64) % 64, 128 + n % 64]

/-- The UTF-8 bytes of a string: what Go's range-over-`[]byte(s)` sees. -/
def utf8Bytes (s : String) : List Nat :=
  s.data.foldr (fun c acc => charUtf8Bytes c ++ acc) []

/-- Uppercase hexadecimal digit for a value below 16, as written by Go's
percent-encoder. -/
def hexUpper (n : Nat) : Char :=
  if n < 10 then Char.ofNat (48 + n) else Char.ofNat (55 + n)

/-- Whether a byte is left unescaped by Go's `url.QueryEscape`:
alphanumerics and the unreserved marks `-`, `.`, `_`, `~`. -/
def isUnescapedQueryByte (b : Nat) : Bool :=
  (65 ≤ b && b ≤ 90) || (97 ≤ b && b ≤ 122) || (48 ≤ b && b ≤ 57) ||
    b == 45 || b == 46 || b == 95 || b == 126

/-- Escape one byte the way Go's `url.QueryEscape` does: unreserved bytes
pass through, a space becomes `+`, everything else becomes `%XX` with
uppercase hex. -/
def escapeQueryByte (b : Nat) : String :=
  if isUnescapedQueryByte b then String.singleton (Char.ofNat b)
  else if b == 32 then "+"
  else "%" ++ String.singleton (hexUpper (b / 16)) ++ String.singleton (hexUpper (b % 16))

/-- Go's `url.QueryEscape`, applied byte-wise to the UTF-8 encoding. -/
def queryEscape (s : String) : String :=
  String.join ((utf8Bytes s).map escapeQueryByte)

/-- Embedding of Go's `url.Values` (`map[string][]string`): an association
list from keys to value lists; well-formed values have distinct keys. -/
abbrev UrlValues := List (String × List String)

/-- Insert one key into a key-sorted association list, keeping it sorted
by key (Go's `Encode` iterates keys in sorted order). -/
def insertSortedByKey (p : String × List String) :
    List (String × List String) → List (String × List String)
  | [] => [p]
  | q :: rest =>
    match compare p.1 q.1 with
    | Ordering.gt => q :: insertSortedByKey p rest
    | _ => p :: q :: rest

/-- Sort an association list by key, the order in which Go's
`url.Values.Encode` visits keys. -/
def sortByKey : List (String × List String) → List (String × List String)
  | [] => []
  | p :: rest => insertSortedByKey p (sortByKey rest)

/-- Embedding of Go's `url.Values.Encode`: keys in sorted order, each
value of a key as `escapedKey=escapedValue`, parts joined with `&`.
A nil or empty map encodes to the empty string. -/
def encodeValues (vs : UrlValues) : String :=
  String.intercalate "&"
    ((sortByKey vs).foldr
      (fun kv acc => kv.2.map (fun v => queryEscape kv.1 ++ "=" ++ queryEscape v) ++ acc) [])

/-- Insert (or overwrite) a key in a header map, embedding assignment into
a Go `map[string]string`. -/
def insertH : List (String × String) → String → String → List (String × String)
  | [], k, v => [(k, v)]
  | (k0, v0) :: rest, k, v =>
    if k0 == k then (k0, v) :: rest else (k0, v0) :: insertH rest k v

/-- Look a key up in a header map. -/
def lookupH : List (String × String) → String → Option String
  | [], _ => none
  | (k0, v0) :: rest, k => if k0 == k then some v0 else lookupH rest k

/-- Capability record embedding the dynamic type of the Go `Body` field
(`any`). Exactly one of the concrete-type fields (`urlValues`, `bytes`,
`str`) can be populated for a real Go value; the interface fields
(`yamlM`, `jsonM`, `textM`, `stringer`) may overlap, carrying the result
the corresponding marshal call would return. `defaultFmt` is
`fmt.Sprintf` of the value with the generic verb, used by the catch-all
case; for a nil interface value it is the 5-byte string `<nil>`. -/
structure BodyVal where
  urlValues : Option UrlValues
  bytes : Option (List Nat)
  str : Option String
  yamlM : Option (Except String String)
  jsonM : Option (Except String String)
  textM : Option (Except String String)
  stringer : Option String
  defaultFmt : String
deriving DecidableEq

/-- Capability record embedding the dynamic type of the Go `Data`
destination field, in the source's receive-switch case order. -/
structure DataVal where
  isMapStringAny : Bool
  strVal : Option String
  isBytes : Bool
  isYamlUnmarshaler : Bool
  isIoWriter : Bool
  isJsonThis : Bool
deriving DecidableEq

/-- Outcome of `io.ReadAll` on the response body together with the status
fields of Go's `http.Response` that `Submit` inspects. -/
structure HttpResponse where
  statusCode : Int
  status : String
  bodyRead : Except String String
deriving DecidableEq

/-- Outcome of `Client.Do`, following the documented contract of
`http.Client.Do`: a nil error comes with a non-nil response; a non-nil
error usually comes with a nil response (non-nil only on redirect-check
failure), so the failure case carries an optional response. -/
inductive DoOutcome where
  | success (res : HttpResponse)
  | failure (res : Option HttpResponse) (e : String)
deriving DecidableEq

/-- The response component of a `Client.Do` outcome: what the Go variable
`res` holds when `Client.Do` returns. -/
def DoOutcome.resOpt : DoOutcome → Option HttpResponse
  | DoOutcome.success res => some res
  | DoOutcome.failure r _ => r

/-- Oracles for the standard-library effects one `Submit` call performs:
the error outcome of `http.NewRequest` (none means success), the outcome
of `Client.Do`, and the error outcome of `yaml.Unmarshal` into the
destination (none means success). -/
structure NetEnv where
  newReqErr : Option String
  doOutcome : DoOutcome
  yamlDecodeErr : Option String
deriving DecidableEq

/-- Errors `Submit` can return: `HTTPError` wrapping the response,
`ReqSyntaxError` with a message, or any error value from a library call
(transport, marshal, read, unmarshal) propagated verbatim. -/
inductive SubmitError where
  | httpError (resp : HttpResponse)
  | reqSyntaxError (msg : String)
  | external (e : String)
deriving DecidableEq

/-- Embedding of the `Req` descriptor struct: method, base URL, query
values, headers (a nil map is `none`), body, destination, whether the
context field is nil, and the recorded response. -/
structure Req where
  Method : String
  URL : String
  Query : UrlValues
  Headers : Option (List (String × String))
  Body : BodyVal
  Data : DataVal
  ContextIsNil : Bool
  Resp : Option HttpResponse
deriving DecidableEq

/-- The outbound request constructed by `http.NewRequest` plus the headers
added to it. -/
structure OutboundRequest where
  method : String
  url : String
  headers : List (String × String)
  body : String
deriving DecidableEq

/-- Result of one `submit` call: the mutated descriptor, the returned
error (none for nil), and observations: whether `http.NewRequest` was
reached and succeeded, whether `Client.Do` was invoked, the outbound
request, and whether the destination dispatch switch was entered. -/
structure SubmitOutcome where
  finalReq : Req
  err : Option SubmitError
  requestConstructed : Bool
  clientInvoked : Bool
  sent : Option OutboundRequest
  dataDispatchRan : Bool
deriving DecidableEq

/-- Body serialization dispatch of `Submit` (the `switch v := req.Body.(type)`):
checks the capabilities in the source's case order — `url.Values`,
`[]byte` (unimplemented uuencode stub leaving the buffer empty), `string`,
`yaml.Marshaler`, `json.Marshaler`, `encoding.TextMarshaler`,
`fmt.Stringer`, then the generic default — returning the serialized
buffer and the updated header map, or the marshal error. -/
def bodySwitch (b : BodyVal) (hs : List (String × String)) :
    Except String (String × List (String × String)) :=
  match b.urlValues with
  | some vs => Except.ok (encodeValues vs, insertH hs "Content-Type" "application/x-www-form-urlencoded")
  | none =>
  match b.bytes with
  | some _ => Except.ok ("", hs)
  | none =>
  match b.str with
  | some s => Except.ok (s, hs)
  | none =>
  match b.yamlM with
  | some (Except.ok s) => Except.ok (s, hs)
  | some (Except.error e) => Except.error e
  | none =>
  match b.jsonM with
  | some (Except.ok s) => Except.ok (s, hs)
  | some (Except.error e) => Except.error e
  | none =>
  match b.textM with
  | some (Except.ok s) => Except.ok (s, hs)
  | some (Except.error e) => Except.error e
  | none =>
  match b.stringer with
  | some s => Except.ok (s, hs)
  | none => Except.ok (b.defaultFmt, hs)

/-- Destination dispatch of `Submit` (the `switch req.Data.(type)` run on a
non-empty response body): `map[string]any` and `yaml.Unmarshaler` and the
default case call `yaml.Unmarshal` and return its error; a `string`
destination is replaced by the body text; `[]byte` and `rwxjson.This` are
unimplemented log-only stubs; `io.Writer` returns nil. Returns the error
outcome and the new destination value. -/
def dataSwitch (d : DataVal) (body : String) (yamlErr : Option String) :
    Option String × DataVal :=
  if d.isMapStringAny then (yamlErr, d)
  else
    match d.strVal with
    | some _ =>
      (none, { isMapStringAny := false, strVal := some body, isBytes := false,
               isYamlUnmarshaler := false, isIoWriter := false, isJsonThis := false })
    | none =>
      if d.isBytes then (none, d)
      else if d.isYamlUnmarshaler then (yamlErr, d)
      else if d.isIoWriter then (none, d)
      else if d.isJsonThis then (none, d)
      else (yamlErr, d)

/-- The method-defaulting step of `Submit`: an empty method becomes GET. -/
def defaultMethod (r : Req) : Req :=
  if r.Method = "" then { r with Method := "GET" } else r

/-- Outcome shared by all paths that stop before `http.NewRequest`. -/
def preNetOutcome (r : Req) (e : SubmitError) : SubmitOutcome :=
  { finalReq := r, err := some e, requestConstructed := false,
    clientInvoked := false, sent := none, dataDispatchRan := false }

/-- The tail of `Submit` from the `Client.Do` call on: records the raw
response onto the descriptor before inspecting the error, propagates a
transport error verbatim, classifies the status code, reads the body,
short-circuits on an empty body, and otherwise runs the destination
dispatch. `r` is the descriptor after URL/header mutation and `ob` the
constructed outbound request. -/
def afterDo (r : Req) (env : NetEnv) (ob : OutboundRequest) : SubmitOutcome :=
  let r5 : Req := { r with Resp := DoOutcome.resOpt env.doOutcome }
  match env.doOutcome with
  | DoOutcome.failure _ e =>
    { finalReq := r5, err := some (SubmitError.external e), requestConstructed := true,
      clientInvoked := true, sent := some ob, dataDispatchRan := false }
  | DoOutcome.success res =>
    if 200 ≤ res.statusCode ∧ res.statusCode < 300 then
      match res.bodyRead with
      | Except.error e =>
        { finalReq := r5, err := some (SubmitError.external e), requestConstructed := true,
          clientInvoked := true, sent := some ob, dataDispatchRan := false }
      | Except.ok body =>
        if body = "" then
          { finalReq := r5, err := none, requestConstructed := true,
            clientInvoked := true, sent := some ob, dataDispatchRan := false }
        else
          let p := dataSwitch r5.Data body env.yamlDecodeErr
          { finalReq := { r5 with Data := p.2 }, err := p.1.map SubmitError.external,
            requestConstructed := true, clientInvoked := true, sent := some ob,
            dataDispatchRan := true }
    else
      { finalReq := r5, err := some (SubmitError.httpError res), requestConstructed := true,
        clientInvoked := true, sent := some ob, dataDispatchRan := false }

/-- Embedding of `Req.Submit` from `pkg/web.go`: default the method,
reject a URL that already contains a query separator, append the encoded
query, default a nil header map, serialize the body and set
`Content-Length` to its byte length, construct the outbound request,
invoke the shared client, and interpret the result (`afterDo`). -/
def submit (r : Req) (env : NetEnv) : SubmitOutcome :=
  let r1 := defaultMethod r
  if containsChar r1.URL '?' then
    preNetOutcome r1 (SubmitError.reqSyntaxError "URL contains '?' (use Query instead)")
  else
    let r2 : Req := { r1 with URL := r1.URL ++ "?" ++ encodeValues r1.Query }
    let hs0 := r2.Headers.getD []
    let r3 : Req := { r2 with Headers := some hs0 }
    match bodySwitch r3.Body hs0 with
    | Except.error e => preNetOutcome r3 (SubmitError.external e)
    | Except.ok (buf, hs1) =>
      let hs2 := insertH hs1 "Content-Length" (toString buf.utf8ByteSize)
      let r4 : Req := { r3 with Headers := some hs2 }
      match env.newReqErr with
      | some e => preNetOutcome r4 (SubmitError.external e)
      | none =>
        let ob : OutboundRequest :=
          { method := r4.Method, url := r4.URL, headers := hs2, body := buf }
        afterDo r4 env ob

/-- The descriptor as it stands when `Submit` reaches `http.NewRequest`:
method defaulted, query appended to the URL, headers defaulted and
carrying `Content-Length`. -/
def preparedReq (r : Req) (buf : String) (hs1 : List (String × String)) : Req :=
  { defaultMethod r with
    URL := (defaultMethod r).URL ++ "?" ++ encodeValues (defaultMethod r).Query,
    Headers := some (insertH hs1 "Content-Length" (toString buf.utf8ByteSize)) }

/-- The outbound request `Submit` constructs when `http.NewRequest`
succeeds. -/
def preparedOb (r : Req) (buf : String) (hs1 : List (String × String)) : OutboundRequest :=
  { method := (preparedReq r buf hs1).Method,
    url := (preparedReq r buf hs1).URL,
    headers := insertH hs1 "Content-Length" (toString buf.utf8ByteSize),
    body := buf }

/-- Embedding of a nil interface value in the `Body` field: it matches no
typed case of the body switch and Go's generic formatting of nil is the
5-byte literal written by the fmt package. -/
def nilBodyVal : BodyVal :=
  ⟨none, none, none, none, none, none, none, "<nil>"⟩

/-- Embedding of a plain Go string body: matches the `string` case; its
generic formatting is the string itself. -/
def strBody (s : String) : BodyVal :=
  ⟨none, none, some s, none, none, none, none, s⟩

/-- Embedding of a destination value matching no typed case of the
receive switch (handled by its `default` case). -/
def sampleData : DataVal := ⟨false, none, false, false, false, false⟩

/-- A well-formed sample descriptor used to instantiate the theorems. -/
def baseReq : Req :=
  { Method := "", URL := "http://x/a", Query := [], Headers := none,
    Body := strBody "", Data := sampleData, ContextIsNil := true, Resp := none }

/-- A 200 response with an empty body. -/
def okRes : HttpResponse := ⟨200, "200 OK", Except.ok ""⟩

/-- An environment where every library call succeeds and the server
answers 200 with an empty body. -/
def okEnv : NetEnv := ⟨none, DoOutcome.success okRes, none⟩

/-- A 200 response whose body stream fails while being read. -/
def readErrRes : HttpResponse := ⟨200, "200 OK", Except.error "read failed"⟩

/-- An environment where the server answers 200 but reading the response
body fails. -/
def readErrEnv : NetEnv := ⟨none, DoOutcome.success readErrRes, none⟩

theorem defaultMethod_URL (r : Req) : (defaultMethod r).URL = r.URL := by
  unfold defaultMethod; split <;> rfl

theorem defaultMethod_Query (r : Req) : (defaultMethod r).Query = r.Query := by
  unfold defaultMethod; split <;> rfl

theorem defaultMethod_Headers (r : Req) : (defaultMethod r).Headers = r.Headers := by
  unfold defaultMethod; split <;> rfl

theorem defaultMethod_Body (r : Req) : (defaultMethod r).Body = r.Body := by
  unfold defaultMethod; split <;> rfl

theorem defaultMethod_Data (r : Req) : (defaultMethod r).Data = r.Data := by
  unfold defaultMethod; split <;> rfl

theorem lookupH_insertH_self (hs : List (String × String)) (k v : String) :
    lookupH (insertH hs k v) k = some v := by
  induction hs with
  | nil => simp [insertH, lookupH]
  | cons p rest ih =>
    obtain ⟨k0, v0⟩ := p
    by_cases h : (k0 == k) = true
    · simp [insertH, lookupH, h]
    · simp [insertH, lookupH, h, ih]

theorem afterDo_clientInvoked (r : Req) (env : NetEnv) (ob : OutboundRequest) :
    (afterDo r env ob).clientInvoked = true := by
  cases hdo : env.doOutcome with
  | failure ro e => simp [afterDo, hdo]
  | success res =>
    by_cases h : 200 ≤ res.statusCode ∧ res.statusCode < 300
    · cases hb : res.bodyRead with
      | error e => simp [afterDo, hdo, h, hb]
      | ok body => by_cases hbe : body = "" <;> simp [afterDo, hdo, h, hb, hbe]
    · simp [afterDo, hdo, h]

theorem afterDo_sent (r : Req) (env : NetEnv) (ob : OutboundRequest) :
    (afterDo r env ob).sent = some ob := by
  cases hdo : env.doOutcome with
  | failure ro e => simp [afterDo, hdo]
  | success res =>
    by_cases h : 200 ≤ res.statusCode ∧ res.statusCode < 300
    · cases hb : res.bodyRead with
      | error e => simp [afterDo, hdo, h, hb]
      | ok body => by_cases hbe : body = "" <;> simp [afterDo, hdo, h, hb, hbe]
    · simp [afterDo, hdo, h]

theorem afterDo_finalReq_Resp (r : Req) (env : NetEnv) (ob : OutboundRequest) :
    (afterDo r env ob).finalReq.Resp = DoOutcome.resOpt env.doOutcome := by
  cases hdo : env.doOutcome with
  | failure ro e => simp [afterDo, hdo]
  | success res =>
    by_cases h : 200 ≤ res.statusCode ∧ res.statusCode < 300
    · cases hb : res.bodyRead with
      | error e => simp [afterDo, hdo, h, hb]
      | ok body => by_cases hbe : body = "" <;> simp [afterDo, hdo, h, hb, hbe]
    · simp [afterDo, hdo, h]

theorem afterDo_finalReq_Headers (r : Req) (env : NetEnv) (ob : OutboundRequest) :
    (afterDo r env ob).finalReq.Headers = r.Headers := by
  cases hdo : env.doOutcome with
  | failure ro e => simp [afterDo, hdo]
  | success res =>
    by_cases h : 200 ≤ res.statusCode ∧ res.statusCode < 300
    · cases hb : res.bodyRead with
      | error e => simp [afterDo, hdo, h, hb]
      | ok body => by_cases hbe : body = "" <;> simp [afterDo, hdo, h, hb, hbe]
    · simp [afterDo, hdo, h]

theorem afterDo_finalReq_URL (r : Req) (env : NetEnv) (ob : OutboundRequest) :
    (afterDo r env ob).finalReq.URL = r.URL := by
  cases hdo : env.doOutcome with
  | failure ro e => simp [afterDo, hdo]
  | success res =>
    by_cases h : 200 ≤ res.statusCode ∧ res.statusCode < 300
    · cases hb : res.bodyRead with
      | error e => simp [afterDo, hdo, h, hb]
      | ok body => by_cases hbe : body = "" <;> simp [afterDo, hdo, h, hb, hbe]
    · simp [afterDo, hdo, h]

/-- Master unfolding lemma: once the query-separator check passes and body
serialization succeeds, `submit` is `afterDo` on the prepared descriptor,
or stops with the `http.NewRequest` error. -/
theorem submit_eq (r : Req) (env : NetEnv) (buf : String) (hs1 : List (String × String))
    (h1 : containsChar r.URL '?' = false)
    (h2 : bodySwitch r.Body (r.Headers.getD []) = Except.ok (buf, hs1)) :
    submit r env =
      match env.newReqErr with
      | some e => preNetOutcome (preparedReq r buf hs1) (SubmitError.external e)
      | none => afterDo (preparedReq r buf hs1) env (preparedOb r buf hs1) := by
  unfold submit preparedReq preparedOb
  simp only [defaultMethod_URL, defaultMethod_Body, defaultMethod_Headers, defaultMethod_Query,
    defaultMethod_Data, h1, Bool.false_eq_true, if_false, h2]
  cases env.newReqErr <;>
    simp [preNetOutcome, preparedReq, defaultMethod_URL, defaultMethod_Query]

theorem preparedReq_Headers (r : Req) (buf : String) (hs1 : List (String × String)) :
    (preparedReq r buf hs1).Headers
      = some (insertH hs1 "Content-Length" (toString buf.utf8ByteSize)) := rfl

theorem preparedReq_Data (r : Req) (buf : String) (hs1 : List (String × String)) :
    (preparedReq r buf hs1).Data = r.Data := by
  simp [preparedReq, defaultMethod_Data]

theorem preparedOb_body (r : Req) (buf : String) (hs1 : List (String × String)) :
    (preparedOb r buf hs1).body = buf := rfl

/-- C2: for every descriptor whose base URL contains a literal query
separator, `Submit` returns a `ReqSyntaxError` and performs no network
I/O: no outbound request is constructed and the shared client is never
invoked. -/
theorem C2_query_separator_rejected (r : Req) (env : NetEnv)
    (h : containsChar r.URL '?' = true) :
    (submit r env).err = some (SubmitError.reqSyntaxError "URL contains '?' (use Query instead)")
    ∧ (submit r env).requestConstructed = false
    ∧ (submit r env).clientInvoked = false
    ∧ (submit r env).sent = none := by
  unfold submit
  simp [defaultMethod_URL, h, preNetOutcome]

/-- C2 witness: a concrete descriptor with a query separator embedded in
the URL is rejected without touching the network. -/
theorem C2_query_separator_rejected_witness :
    (submit { baseReq with URL := "http://x/a?b=1" } okEnv).err
      = some (SubmitError.reqSyntaxError "URL contains '?' (use Query instead)")
    ∧ (submit { baseReq with URL := "http://x/a?b=1" } okEnv).clientInvoked = false :=
  ⟨(C2_query_separator_rejected { baseReq with URL := "http://x/a?b=1" } okEnv rfl).1,
   (C2_query_separator_rejected { baseReq with URL := "http://x/a?b=1" } okEnv rfl).2.2.1⟩

/-- C6: for every `Submit` call that reaches the shared client, the raw
response object returned by the client is recorded onto the descriptor,
regardless of whether the call succeeded, failed at the transport level,
or yielded a non-2xx status. -/
theorem C6_response_recorded_always (r : Req) (env : NetEnv) (buf : String)
    (hs1 : List (String × String))
    (h1 : containsChar r.URL '?' = false)
    (h2 : bodySwitch r.Body (r.Headers.getD []) = Except.ok (buf, hs1))
    (h3 : env.newReqErr = none) :
    (submit r env).finalReq.Resp = DoOutcome.resOpt env.doOutcome := by
  rw [submit_eq r env buf hs1 h1 h2]
  simp [h3, afterDo_finalReq_Resp]

/-- C6 witness: with a transport failure that still carries a response,
the response is recorded on the descriptor. -/
theorem C6_response_recorded_always_witness :
    (submit baseReq ⟨none, DoOutcome.failure (some okRes) "boom", none⟩).finalReq.Resp
      = some okRes :=
  C6_response_recorded_always baseReq ⟨none, DoOutcome.failure (some okRes) "boom", none⟩
    "" [] rfl rfl rfl

/-- C7: for every `Submit` call in which the transport-level call returns
an error, `Submit` returns that error unchanged; it is never wrapped in
or reinterpreted as an `HTTPError`. -/
theorem C7_transport_error_verbatim (r : Req) (env : NetEnv) (buf : String)
    (hs1 : List (String × String)) (ro : Option HttpResponse) (e : String)
    (h1 : containsChar r.URL '?' = false)
    (h2 : bodySwitch r.Body (r.Headers.getD []) = Except.ok (buf, hs1))
    (h3 : env.newReqErr = none)
    (h4 : env.doOutcome = DoOutcome.failure ro e) :
    (submit r env).err = some (SubmitError.external e) := by
  rw [submit_eq r env buf hs1 h1 h2]
  simp [h3, h4, afterDo]

/-- C7 witness: a concrete connection-refused error is propagated
verbatim. -/
theorem C7_transport_error_verbatim_witness :
    (submit baseReq ⟨none, DoOutcome.failure none "connection refused", none⟩).err
      = some (SubmitError.external "connection refused") :=
  C7_transport_error_verbatim baseReq ⟨none, DoOutcome.failure none "connection refused", none⟩
    "" [] none "connection refused" rfl rfl rfl rfl

/-- C1 counterexample: the claim says that whenever a response is received
with a status in [200,300), `Submit` returns no error; but with a 200
response whose body stream fails while being read, `Submit` returns the
read error. -/
theorem C1_counterexample_read_error :
    readErrEnv.doOutcome = DoOutcome.success readErrRes
    ∧ readErrRes.statusCode = 200
    ∧ (submit baseReq readErrEnv).err = some (SubmitError.external "read failed") :=
  ⟨rfl, rfl, rfl⟩

/-- C1 amended: for every submission in which a response is received from
the server, if the status code is in [200,300) and the response body is
read without error and the destination decode succeeds (or the body is
empty), `Submit` returns no error and populates the descriptor's response
object; if the status code is outside [200,300), `Submit` returns an
`HTTPError` wrapping the full response (so its status matches the
server's). -/
theorem C1_amended_status_classification (r : Req) (env : NetEnv) (res : HttpResponse)
    (buf : String) (hs1 : List (String × String))
    (h1 : containsChar r.URL '?' = false)
    (h2 : bodySwitch r.Body (r.Headers.getD []) = Except.ok (buf, hs1))
    (h3 : env.newReqErr = none)
    (h4 : env.doOutcome = DoOutcome.success res) :
    ((200 ≤ res.statusCode ∧ res.statusCode < 300) →
      ∀ bodyStr, res.bodyRead = Except.ok bodyStr →
        (bodyStr = "" ∨ (dataSwitch r.Data bodyStr env.yamlDecodeErr).1 = none) →
        ((submit r env).err = none ∧ (submit r env).finalReq.Resp = some res))
    ∧ (¬(200 ≤ res.statusCode ∧ res.statusCode < 300) →
        ((submit r env).err = some (SubmitError.httpError res)
          ∧ (submit r env).finalReq.Resp = some res)) := by
  rw [submit_eq r env buf hs1 h1 h2]
  simp only [h3]
  constructor
  · intro hst bodyStr hread hok
    by_cases hbe : bodyStr = ""
    · subst hbe
      constructor <;> simp [afterDo, h4, hst, hread, DoOutcome.resOpt]
    · rcases hok with hok | hok
      · exact absurd hok hbe
      · constructor <;>
          simp [afterDo, h4, hst, hread, hbe, preparedReq_Data, hok, DoOutcome.resOpt]
  · intro hst
    constructor <;> simp [afterDo, h4, hst, DoOutcome.resOpt]

/-- C1 amended witness: a concrete 204-style empty 200 response yields no
error and a recorded response; the theorem applied again at a concrete
404 response yields an `HTTPError` wrapping it. -/
theorem C1_amended_status_classification_witness :
    ((submit baseReq okEnv).err = none
      ∧ (submit baseReq okEnv).finalReq.Resp = some okRes)
    ∧ ((submit baseReq ⟨none, DoOutcome.success ⟨404, "404 Not Found", Except.ok "nope"⟩, none⟩).err
        = some (SubmitError.httpError ⟨404, "404 Not Found", Except.ok "nope"⟩)) :=
  ⟨(C1_amended_status_classification baseReq okEnv okRes "" [] rfl rfl rfl rfl).1
      (by decide) "" rfl (Or.inl rfl),
   ((C1_amended_status_classification baseReq
      ⟨none, DoOutcome.success ⟨404, "404 Not Found", Except.ok "nope"⟩, none⟩
      ⟨404, "404 Not Found", Except.ok "nope"⟩ "" [] rfl rfl rfl rfl).2 (by decide)).1⟩

/-- C8: for every `Submit` call that receives a 2xx response whose body is
empty, `Submit` returns no error and the destination value is left
completely untouched: the destination dispatch switch never runs. -/
theorem C8_empty_body_short_circuit (r : Req) (env : NetEnv) (res : HttpResponse)
    (buf : String) (hs1 : List (String × String))
    (h1 : containsChar r.URL '?' = false)
    (h2 : bodySwitch r.Body (r.Headers.getD []) = Except.ok (buf, hs1))
    (h3 : env.newReqErr = none)
    (h4 : env.doOutcome = DoOutcome.success res)
    (h5 : 200 ≤ res.statusCode ∧ res.statusCode < 300)
    (h6 : res.bodyRead = Except.ok "") :
    (submit r env).err = none
    ∧ (submit r env).finalReq.Data = r.Data
    ∧ (submit r env).dataDispatchRan = false := by
  rw [submit_eq r env buf hs1 h1 h2]
  refine ⟨?_, ?_, ?_⟩ <;> simp [h3, afterDo, h4, h5, h6, preparedReq_Data]

/-- C8 witness: a concrete 200 response with an empty body leaves the
destination unchanged and runs no dispatch case. -/
theorem C8_empty_body_short_circuit_witness :
    (submit baseReq okEnv).err = none
    ∧ (submit baseReq okEnv).finalReq.Data = baseReq.Data
    ∧ (submit baseReq okEnv).dataDispatchRan = false :=
  C8_empty_body_short_circuit baseReq okEnv okRes "" [] rfl rfl rfl rfl (by decide) rfl

/-- C9: for every descriptor that passes the query-separator check,
`Submit` sets the URL to the base URL followed by a query separator and
the URL-encoded query parameters, and the separator is appended even when
the query-parameter set is empty, leaving the final URL ending in a bare
separator. -/
theorem C9_query_always_appended (r : Req) (env : NetEnv)
    (h1 : containsChar r.URL '?' = false) :
    (submit r env).finalReq.URL = r.URL ++ "?" ++ encodeValues r.Query
    ∧ (r.Query = [] → (submit r env).finalReq.URL = r.URL ++ "?") := by
  have hmain : (submit r env).finalReq.URL = r.URL ++ "?" ++ encodeValues r.Query := by
    unfold submit
    simp only [defaultMethod_URL, defaultMethod_Body, defaultMethod_Headers, defaultMethod_Query,
      h1, Bool.false_eq_true, if_false]
    cases hb : bodySwitch r.Body (r.Headers.getD []) with
    | error e => simp [preNetOutcome]
    | ok p =>
      obtain ⟨buf, hs1⟩ := p
      cases hn : env.newReqErr with
      | some e => simp [preNetOutcome]
      | none => simp [afterDo_finalReq_URL]
  refine ⟨hmain, fun hq => ?_⟩
  rw [hmain, hq]
  have henc : encodeValues [] = "" := rfl
  rw [henc]
  exact String.append_empty _

/-- C9 witness: a concrete descriptor with an empty query-parameter set
ends up with a URL ending in a bare query separator. -/
theorem C9_query_always_appended_witness :
    (submit baseReq okEnv).finalReq.URL = "http://x/a?" :=
  (C9_query_always_appended baseReq okEnv rfl).2 rfl

/-- C5: for every supported body-source type, after serialization `Submit`
sets the `Content-Length` header to exactly the byte length of the
serialized body string, the outbound request carries exactly that body,
and a zero-length serialization proceeds (the client is still invoked)
rather than producing an error. -/
theorem C5_content_length_matches_body (r : Req) (env : NetEnv) (buf : String)
    (hs1 : List (String × String))
    (h1 : containsChar r.URL '?' = false)
    (h2 : bodySwitch r.Body (r.Headers.getD []) = Except.ok (buf, hs1)) :
    lookupH (((submit r env).finalReq.Headers).getD []) "Content-Length"
      = some (toString buf.utf8ByteSize)
    ∧ (∀ ob, (submit r env).sent = some ob → ob.body = buf)
    ∧ (env.newReqErr = none → (submit r env).clientInvoked = true) := by
  rw [submit_eq r env buf hs1 h1 h2]
  refine ⟨?_, ?_, ?_⟩
  · cases hn : env.newReqErr with
    | some e => simp [preNetOutcome, preparedReq_Headers, lookupH_insertH_self]
    | none => simp [afterDo_finalReq_Headers, preparedReq_Headers, lookupH_insertH_self]
  · intro ob hob
    cases hn : env.newReqErr with
    | some e => simp [hn, preNetOutcome] at hob
    | none =>
      rw [hn] at hob
      simp only [afterDo_sent, Option.some.injEq] at hob
      rw [hob.symm, preparedOb_body]
  · intro hn
    simp [hn, afterDo_clientInvoked]

/-- C5 witness: a concrete two-character, three-byte string body gets
Content-Length 3, and a concrete empty body still reaches the client. -/
theorem C5_content_length_matches_body_witness :
    lookupH (((submit { baseReq with Body := strBody "hé" } okEnv).finalReq.Headers).getD [])
        "Content-Length" = some "3"
    ∧ (submit baseReq okEnv).clientInvoked = true :=
  ⟨(C5_content_length_matches_body { baseReq with Body := strBody "hé" } okEnv "hé" []
      rfl rfl).1,
   (C5_content_length_matches_body baseReq okEnv "" [] rfl rfl).2.2 rfl⟩

/-- C4: body serialization dispatches on the body value's type in exactly
the source's priority order, first matching type winning: form-encoded
key/value collection (with Content-Type set), raw binary payload (no-op
stub with an empty buffer), plain string (verbatim), YAML-marshalable,
JSON-marshalable, text-marshalable, Stringer, then generic default
formatting; in particular a JSON-marshalable value that is none of the
earlier kinds takes the JSON path, not generic formatting. -/
theorem C4_body_dispatch_priority (b : BodyVal) (hs : List (String × String)) :
    (∀ vs, b.urlValues = some vs →
      bodySwitch b hs
        = Except.ok (encodeValues vs,
            insertH hs "Content-Type" "application/x-www-form-urlencoded"))
    ∧ (∀ bs, b.urlValues = none → b.bytes = some bs →
        bodySwitch b hs = Except.ok ("", hs))
    ∧ (∀ s, b.urlValues = none → b.bytes = none → b.str = some s →
        bodySwitch b hs = Except.ok (s, hs))
    ∧ (∀ y, b.urlValues = none → b.bytes = none → b.str = none → b.yamlM = some y →
        bodySwitch b hs
          = match y with
            | Except.ok s => Except.ok (s, hs)
            | Except.error e => Except.error e)
    ∧ (∀ j, b.urlValues = none → b.bytes = none → b.str = none → b.yamlM = none →
        b.jsonM = some j →
        bodySwitch b hs
          = match j with
            | Except.ok s => Except.ok (s, hs)
            | Except.error e => Except.error e)
    ∧ (∀ t, b.urlValues = none → b.bytes = none → b.str = none → b.yamlM = none →
        b.jsonM = none → b.textM = some t →
        bodySwitch b hs
          = match t with
            | Except.ok s => Except.ok (s, hs)
            | Except.error e => Except.error e)
    ∧ (∀ s, b.urlValues = none → b.bytes = none → b.str = none → b.yamlM = none →
        b.jsonM = none → b.textM = none → b.stringer = some s →
        bodySwitch b hs = Except.ok (s, hs))
    ∧ (b.urlValues = none → b.bytes = none → b.str = none → b.yamlM = none →
        b.jsonM = none → b.textM = none → b.stringer = none →
        bodySwitch b hs = Except.ok (b.defaultFmt, hs)) := by
  refine ⟨?_, ?_, ?_, ?_, ?_, ?_, ?_, ?_⟩
  · intro vs h0
    simp [bodySwitch, h0]
  · intro bs h0 hb
    simp [bodySwitch, h0, hb]
  · intro s h0 hb hsr
    simp [bodySwitch, h0, hb, hsr]
  · intro y h0 hb hsr hy
    cases y <;> simp [bodySwitch, h0, hb, hsr, hy]
  · intro j h0 hb hsr hy hj
    cases j <;> simp [bodySwitch, h0, hb, hsr, hy, hj]
  · intro t h0 hb hsr hy hj ht
    cases t <;> simp [bodySwitch, h0, hb, hsr, hy, hj, ht]
  · intro s h0 hb hsr hy hj ht hst
    simp [bodySwitch, h0, hb, hsr, hy, hj, ht, hst]
  · intro h0 hb hsr hy hj ht hst
    simp [bodySwitch, h0, hb, hsr, hy, hj, ht, hst]

/-- C4 witness: a JSON-marshalable value that matches none of the earlier
cases serializes via the JSON path, not via generic formatting. -/
theorem C4_body_dispatch_priority_witness :
    bodySwitch ⟨none, none, none, none, some (Except.ok "[1,2]"), none, none, "generic"⟩ []
      = Except.ok ("[1,2]", []) :=
  (C4_body_dispatch_priority
      ⟨none, none, none, none, some (Except.ok "[1,2]"), none, none, "generic"⟩ []).2.2.2.2.1
    (Except.ok "[1,2]") rfl rfl rfl rfl rfl

/-- C3: the claim (and the doc comment of `Submit`) says an unsupported
body or destination type yields a `ReqSyntaxError` before any network
call; evaluating the embedding on a descriptor whose body matches no
typed case (an integer, generically formatted as "42") and whose
destination matches no typed case shows `Submit` instead serializes the
body via the catch-all default, invokes the client, and returns no error
at all. -/
theorem C3_no_syntax_error_for_unsupported_types :
    (submit { baseReq with Body := ⟨none, none, none, none, none, none, none, "42"⟩ } okEnv).err
      = none
    ∧ (submit { baseReq with Body := ⟨none, none, none, none, none, none, none, "42"⟩ } okEnv).clientInvoked
      = true
    ∧ (submit { baseReq with Body := ⟨none, none, none, none, none, none, none, "42"⟩ } okEnv).sent
      = some ⟨"GET", "http://x/a?", [("Content-Length", "2")], "42"⟩ :=
  ⟨rfl, rfl, rfl⟩

/-- C10: for every descriptor whose body field is nil, the serialization
dispatch falls through to generic default formatting, so the outbound
request carries the 5-byte literal body for nil and a Content-Length
header of "5". -/
theorem C10_nil_body_formats_generic (r : Req) (env : NetEnv)
    (h1 : containsChar r.URL '?' = false)
    (h2 : r.Body = nilBodyVal) :
    lookupH (((submit r env).finalReq.Headers).getD []) "Content-Length" = some "5"
    ∧ (∀ ob, (submit r env).sent = some ob → ob.body = "<nil>") := by
  have hbs : bodySwitch r.Body (r.Headers.getD []) = Except.ok ("<nil>", r.Headers.getD []) := by
    rw [h2]; rfl
  rw [submit_eq r env "<nil>" (r.Headers.getD []) h1 hbs]
  constructor
  · have h5 : toString ("<nil>".utf8ByteSize) = "5" := rfl
    cases hn : env.newReqErr with
    | some e => simp [preNetOutcome, preparedReq_Headers, lookupH_insertH_self, h5]
    | none => simp [afterDo_finalReq_Headers, preparedReq_Headers, lookupH_insertH_self, h5]
  · intro ob hob
    cases hn : env.newReqErr with
    | some e => simp [hn, preNetOutcome] at hob
    | none =>
      rw [hn] at hob
      simp only [afterDo_sent, Option.some.injEq] at hob
      rw [hob.symm, preparedOb_body]

/-- C10 witness: a concrete descriptor with a nil body sends the 5-byte
literal and Content-Length 5. -/
theorem C10_nil_body_formats_generic_witness :
    lookupH (((submit { baseReq with Body := nilBodyVal } okEnv).finalReq.Headers).getD [])
        "Content-Length" = some "5"
    ∧ (submit { baseReq with Body := nilBodyVal } okEnv).sent
      = some ⟨"GET", "http://x/a?", [("Content-Length", "5")], "<nil>"⟩ :=
  ⟨(C10_nil_body_formats_generic { baseReq with Body := nilBodyVal } okEnv rfl rfl).1,
   by rfl⟩
